import Mathlib

/-!
Shallow embedding of `create_mock_documents.py` (Lighthouse mock-document
generator) and proofs about it.

The script is straight-line Python: at module level it runs
`os.makedirs('documents', exist_ok=True)`; it defines three builder
functions (`create_life_insurance_policy`, `create_will_and_testament`,
`create_state_id`), each of which constructs a list of flowables (the
"story") and calls `SimpleDocTemplate(filename).build(story)` followed by
`print(f"Created: {filename}")`; and its `__main__` block prints a banner,
runs the three builders inside a single `try`, prints two success lines and
runs `os.system('ls -la documents/')`, and on any `Exception` prints an
error line and an install hint.  The script never calls `sys.exit`.

The embedding models the filesystem as an association list of files plus a
list of existing directories, the ambient world (current date, which
operations raise) as an `Env`, and a run as a trace of observable events
together with the final filesystem and the process exit code.  An uncaught
exception makes the Python interpreter terminate with exit status 1 (after
a traceback on stderr, which is not a stdout print and is not modelled as
a `printLine` event); a normal fall-off-the-end termination has exit
status 0.
-/

/-- Colors used by the script (`from reportlab.lib.colors import ...`). -/
inductive Color where
  | black
  | lightgrey
  | white
  | blue
deriving DecidableEq, Repr

/-- Paragraph alignments used by the script (`TA_CENTER`, `TA_LEFT`). -/
inductive Align where
  | center
  | left
deriving DecidableEq, Repr

/-- Embedding of `reportlab`'s `ParagraphStyle` restricted to the attributes
the script sets.  Field order: style name, parent style name, `fontSize`,
`spaceAfter`, `alignment`, `textColor`, `firstLineIndent`, `fontWeight`.
Attributes the script does not set take the stylesheet-inherited values
(`textColor` black, `firstLineIndent` 0, no `fontWeight`). -/
structure ParagraphStyle where
  name : String
  parent : String
  fontSize : Nat
  spaceAfter : Nat
  alignment : Align
  textColor : Color
  firstLineIndent : Nat
  fontWeight : Option String
deriving DecidableEq, Repr

/-- One `TableStyle` command, with its two cell-coordinate corners.
Coordinates may be `-1` (meaning "last"), hence `Int`.  The grid line
width is fractional (`0.5` in the state-ID table), hence `Rat`. -/
inductive TableCmd where
  | background (a b : Int × Int) (c : Color)
  | textColor (a b : Int × Int) (c : Color)
  | align (a b : Int × Int) (s : String)
  | fontName (a b : Int × Int) (s : String)
  | fontSize (a b : Int × Int) (n : Nat)
  | bottomPadding (a b : Int × Int) (n : Nat)
  | grid (a b : Int × Int) (w : Rat) (c : Color)
deriving DecidableEq, Repr

/-- A flowable appended to a builder's `story`: a `Paragraph(text, style)`,
a `Spacer(width, height)`, or a `Table(data, colWidths)` with its
`TableStyle` command list. -/
inductive Flowable where
  | paragraph (text : String) (style : ParagraphStyle)
  | spacer (width height : Nat)
  | table (data : List (List String)) (colWidths : List Nat) (style : List TableCmd)
deriving DecidableEq, Repr

/-- `reportlab.lib.units.inch` in points. -/
def inch : Nat := 72

/-- Output path of `create_life_insurance_policy`. -/
def lifeFilename : String := "documents/Life_Insurance_Policy.pdf"

/-- Output path of `create_will_and_testament`. -/
def willFilename : String := "documents/Last_Will_and_Testament.pdf"

/-- Output path of `create_state_id`. -/
def idFilename : String := "documents/State_ID_Card.pdf"

/-- `title_style` of `create_life_insurance_policy` (defined in the source
but not used by its story). -/
def lifeTitleStyle : ParagraphStyle :=
  ParagraphStyle.mk "CustomTitle" "Heading1" 24 30 Align.center Color.blue 0 none

/-- `header_style` of `create_life_insurance_policy`. -/
def lifeHeaderStyle : ParagraphStyle :=
  ParagraphStyle.mk "Header" "Heading2" 16 12 Align.center Color.black 0 none

/-- `normal_style` of `create_life_insurance_policy`. -/
def lifeNormalStyle : ParagraphStyle :=
  ParagraphStyle.mk "Normal" "Normal" 11 6 Align.left Color.black 0 none

/-- `watermark_style` of `create_life_insurance_policy`. -/
def lifeWatermarkStyle : ParagraphStyle :=
  ParagraphStyle.mk "Watermark" "Normal" 36 0 Align.center Color.lightgrey 0 none

/-- `policy_data` of `create_life_insurance_policy`; the policy date cell is
`datetime.now().strftime('%B %d, %Y')`, passed in as `date`. -/
def policy_data (date : String) : List (List String) :=
  [["<b>Policy Holder:</b>", "John Robert Smith"],
   ["<b>Policy Number:</b>", "LH-99887766"],
   ["<b>Benefit Amount:</b>", "$500,000.00"],
   ["<b>Primary Beneficiary:</b>", "Sarah Smith-Jones"],
   ["<b>Policy Date:</b>", date],
   ["<b>Policy Type:</b>", "Whole Life Insurance"],
   ["<b>Monthly Premium:</b>", "$275.00"],
   ["<b>Cash Value:</b>", "$45,230.50"]]

/-- The `TableStyle` of the life-insurance policy table. -/
def lifeTableStyle : List TableCmd :=
  [TableCmd.background (0, 0) (-1, 0) Color.lightgrey,
   TableCmd.textColor (0, 0) (-1, -1) Color.black,
   TableCmd.align (0, 0) (-1, -1) "CENTER",
   TableCmd.fontName (0, 0) (-1, -1) "Helvetica",
   TableCmd.fontSize (0, 0) (-1, -1) 11,
   TableCmd.bottomPadding (0, 0) (-1, 0) 12,
   TableCmd.background (0, 1) (-1, -1) Color.white,
   TableCmd.grid (0, 0) (-1, -1) 1 Color.black]

/-- `terms_text` of `create_life_insurance_policy` (a triple-quoted Python
string, including its indentation). -/
def terms_text : String :=
  "\n    This policy is a permanent life insurance policy providing coverage for the entire lifetime of the insured person.\n    The policy includes a death benefit of $500,000.00 payable to the named primary beneficiary, Sarah Smith-Jones.\n\n    Premiums are due on the 1st of each month and can be paid through various methods including electronic funds transfer,\n    credit card, or automatic withdrawal from a bank account.\n\n    The policy accumulates cash value over time, which can be borrowed against or surrendered if needed.\n    For more information about policy benefits and terms, please contact our customer service department.\n    "

/-- The `story` assembled by `create_life_insurance_policy`, in source
order; `date` is the formatted current date embedded in the policy table. -/
def lifeStory (date : String) : List Flowable :=
  [Flowable.paragraph "Legacy Life & Casualty" lifeHeaderStyle,
   Flowable.paragraph "Permanent Life Policy" lifeHeaderStyle,
   Flowable.spacer 1 20,
   Flowable.table (policy_data date) [2 * inch, 3 * inch] lifeTableStyle,
   Flowable.spacer 1 30,
   Flowable.paragraph "<b>Policy Terms and Conditions:</b>" lifeHeaderStyle,
   Flowable.paragraph terms_text lifeNormalStyle,
   Flowable.spacer 1 30,
   Flowable.paragraph "Watermark: TEST DOCUMENT" lifeWatermarkStyle]

/-- `title_style` of `create_will_and_testament`. -/
def willTitleStyle : ParagraphStyle :=
  ParagraphStyle.mk "WillTitle" "Heading1" 28 20 Align.center Color.black 0 none

/-- `normal_style` of `create_will_and_testament`. -/
def willNormalStyle : ParagraphStyle :=
  ParagraphStyle.mk "WillNormal" "Normal" 12 8 Align.left Color.black 20 none

/-- `clause_style` of `create_will_and_testament`. -/
def willClauseStyle : ParagraphStyle :=
  ParagraphStyle.mk "ClauseStyle" "Normal" 12 12 Align.left Color.black 20 none

/-- `signature_lines` of `create_will_and_testament`. -/
def signature_lines : List String :=
  ["_______________________________________",
   "John Robert Smith",
   "Testator",
   "",
   "Date: _______________",
   "",
   "_______________________________________",
   "Sarah Smith-Jones",
   "Witness",
   "",
   "Date: _______________",
   "",
   "_______________________________________",
   "Notary Public",
   "My Commission Expires: _______________"]

/-- The `story` assembled by `create_will_and_testament`, in source order. -/
def willStory : List Flowable :=
  [Flowable.paragraph "LAST WILL AND TESTAMENT" willTitleStyle,
   Flowable.paragraph "OF JOHN ROBERT SMITH" willTitleStyle,
   Flowable.spacer 1 30,
   Flowable.paragraph "<b>EXECUTOR:</b>" willNormalStyle,
   Flowable.paragraph "I hereby appoint my daughter, Sarah Smith-Jones, as the Executor of this Will." willNormalStyle,
   Flowable.spacer 1 20,
   Flowable.paragraph "<b>CLAUSE 1: REAL PROPERTY</b>" willNormalStyle,
   Flowable.paragraph "I give, devise, and bequeath all my real property located at 123 Compassion Way, Anytown, ST 12345, to my daughter, Sarah Smith-Jones, absolutely and without conditions." willClauseStyle,
   Flowable.spacer 1 15,
   Flowable.paragraph "<b>CLAUSE 2: PERSONAL PROPERTY</b>" willNormalStyle,
   Flowable.paragraph "I give, devise, and bequeath all my personal property, including but not limited to furniture, clothing, jewelry, and household items, to my daughter, Sarah Smith-Jones." willClauseStyle,
   Flowable.spacer 1 15,
   Flowable.paragraph "<b>CLAUSE 3: FINANCIAL ASSETS</b>" willNormalStyle,
   Flowable.paragraph "I give, devise, and bequeath all my financial assets, including bank accounts, investments, and retirement accounts, to be divided equally among my children." willClauseStyle,
   Flowable.spacer 1 15,
   Flowable.paragraph "<b>CLAUSE 4: FUNERAL ARRANGEMENTS</b>" willNormalStyle,
   Flowable.paragraph "It is my wish that my remains be cremated and that my ashes be scattered in the Pacific Ocean at a location to be determined by my Executor." willClauseStyle,
   Flowable.spacer 1 30,
   Flowable.paragraph "<b>SIGNATURE</b>" willNormalStyle] ++
  signature_lines.map (fun line => Flowable.paragraph line willNormalStyle)

/-- `header_style` of `create_state_id`. -/
def idHeaderStyle : ParagraphStyle :=
  ParagraphStyle.mk "IDHeader" "Heading1" 20 10 Align.center Color.black 0 none

/-- `label_style` of `create_state_id` (defined in the source but not used
by its story). -/
def idLabelStyle : ParagraphStyle :=
  ParagraphStyle.mk "IDLabel" "Normal" 10 2 Align.left Color.black 0 none

/-- `value_style` of `create_state_id`. -/
def idValueStyle : ParagraphStyle :=
  ParagraphStyle.mk "IDValue" "Normal" 12 8 Align.left Color.black 0 (some "bold")

/-- `security_style` of `create_state_id`. -/
def idSecurityStyle : ParagraphStyle :=
  ParagraphStyle.mk "Security" "Normal" 9 4 Align.center Color.lightgrey 0 none

/-- `id_data` of `create_state_id`.  The height cell is the Python string
`5'10"`; the apostrophe is written with its escape `\x27`. -/
def id_data : List (List String) :=
  [["<b>CLASS:</b>", "C", "<b>RESTRICTIONS:</b>", "None"],
   ["<b>SEX:</b>", "Male", "<b>HEIGHT:</b>", "5\x2710\""],
   ["<b>EYES:</b>", "Blue", "<b>WEIGHT:</b>", "185 lbs"],
   ["<b>HAIR:</b>", "Brown", "<b>ORGAN DONOR:</b>", "YES"],
   ["<b>NAME:</b>", "John R. Smith", ""],
   ["<b>DOB:</b>", "05/12/1955", ""],
   ["<b>ADDRESS:</b>", "123 Compassion Way", ""],
   ["", "Anytown, ST 12345", ""],
   ["<b>ISSUE DATE:</b>", "01/10/2020", "<b>EXPIRES:</b>", "01/10/2025"]]

/-- The `TableStyle` of the state-ID table. -/
def idTableStyle : List TableCmd :=
  [TableCmd.background (0, 0) (-1, 0) Color.lightgrey,
   TableCmd.textColor (0, 0) (-1, -1) Color.black,
   TableCmd.align (0, 0) (-1, -1) "LEFT",
   TableCmd.fontName (0, 0) (-1, -1) "Helvetica",
   TableCmd.fontSize (0, 0) (-1, -1) 11,
   TableCmd.bottomPadding (0, 0) (-1, 0) 5,
   TableCmd.background (0, 1) (-1, -1) Color.white,
   TableCmd.grid (0, 0) (-1, -1) (1 / 2) Color.black]

/-- The `story` assembled by `create_state_id`, in source order. -/
def idStory : List Flowable :=
  [Flowable.paragraph "State of Example" idHeaderStyle,
   Flowable.paragraph "Driver License" idHeaderStyle,
   Flowable.spacer 1 20,
   Flowable.table id_data [3 * inch / 2, 3 * inch / 2, 3 * inch / 2, 3 * inch / 2] idTableStyle,
   Flowable.spacer 1 20,
   Flowable.paragraph "<b>DOCUMENT NUMBER:</b> EX-1987654321" idValueStyle,
   Flowable.paragraph "<b>ISSUING AUTHORITY:</b> State of Example Department of Motor Vehicles" idValueStyle,
   Flowable.spacer 1 30,
   Flowable.paragraph "This document contains security features to prevent counterfeiting." idSecurityStyle,
   Flowable.paragraph "Unauthorized reproduction is a criminal offense." idSecurityStyle]

/-- The text runs a flowable contributes to the rendered document: a
paragraph contributes its text, a spacer nothing, a table its cells in row
order. -/
def flowableRuns : Flowable → List String
  | Flowable.paragraph t _ => [t]
  | Flowable.spacer _ _ => []
  | Flowable.table data _ _ => data.flatten

/-- Model of `SimpleDocTemplate(...).build(story)`'s output byte stream:
every PDF produced by the external library starts with the PDF header
bytes, followed by the document content, modelled as the text runs of the
story in order.  Layout, font embedding and byte-level encoding are the
library's responsibility (spec section 6) and are not modelled beyond
this. -/
def render (story : List Flowable) : List String :=
  "%PDF-1.4" :: (story.map flowableRuns).flatten

/-- Size in bytes of a modelled file content: the total length of its
runs. -/
def fileSize (content : List String) : Nat :=
  (content.map String.length).sum

/-- The filesystem: existing directories and an association list mapping
each file path to its content. -/
structure FS where
  dirs : List String
  files : List (String × List String)
deriving DecidableEq, Repr

/-- Look a path up in the file association list. -/
def lookupFile : List (String × List String) → String → Option (List String)
  | [], _ => none
  | (q, c) :: rest, p => if q = p then some c else lookupFile rest p

/-- Write (create or overwrite) a path in the file association list. -/
def setFile : List (String × List String) → String → List String → List (String × List String)
  | [], p, c => [(p, c)]
  | (q, d) :: rest, p, c => if q = p then (p, c) :: rest else (q, d) :: setFile rest p c

/-- Observable events of a run: a line printed to stdout, a directory
actually created by `os.makedirs`, a file written by a `doc.build`, and a
shell command spawned by `os.system`. -/
inductive Event where
  | printLine (s : String)
  | mkdirCreate (d : String)
  | writeFile (p : String) (c : List String)
  | systemCmd (c : String)
deriving DecidableEq, Repr

/-- The ambient world of one run: the formatted current date
(`datetime.now().strftime('%B %d, %Y')`), whether
`os.makedirs('documents', exist_ok=True)` raises (and the exception text
if so), and, per output path, whether rendering to that path raises.  An
exception is modelled by its message string (Python's `str(e)`). -/
structure Env where
  date : String
  mkdirErr : Option String
  writeErr : String → Option String

/-- `os.makedirs('documents', exist_ok=True)` in the non-raising case:
creates the directory only if it is absent, and is a no-op otherwise. -/
def makedirs (fs : FS) (d : String) : FS × List Event :=
  if d ∈ fs.dirs then (fs, [])
  else (FS.mk (d :: fs.dirs) fs.files, [Event.mkdirCreate d])

/-- `SimpleDocTemplate(filename, pagesize=A4)` followed by
`doc.build(story)`: either raises (per the environment's fault model) or
overwrites `filename` with the rendered content. -/
def docBuild (env : Env) (fs : FS) (filename : String) (story : List Flowable) :
    Except String (FS × List Event) :=
  match env.writeErr filename with
  | some e => Except.error e
  | none =>
      Except.ok (FS.mk fs.dirs (setFile fs.files filename (render story)),
        [Event.writeFile filename (render story)])

/-- `create_life_insurance_policy()`: builds its story, renders it to
`documents/Life_Insurance_Policy.pdf`, then prints the `Created:` line.
The Python function takes no parameters and returns `None`; `env` and `fs`
are the ambient world and disk, not function inputs. -/
def create_life_insurance_policy (env : Env) (fs : FS) : Except String (FS × List Event) :=
  match docBuild env fs lifeFilename (lifeStory env.date) with
  | Except.error e => Except.error e
  | Except.ok (fs2, tr) =>
      Except.ok (fs2, tr ++ [Event.printLine ("Created: " ++ lifeFilename)])

/-- `create_will_and_testament()`: renders its story to
`documents/Last_Will_and_Testament.pdf`, then prints the `Created:`
line. -/
def create_will_and_testament (env : Env) (fs : FS) : Except String (FS × List Event) :=
  match docBuild env fs willFilename willStory with
  | Except.error e => Except.error e
  | Except.ok (fs2, tr) =>
      Except.ok (fs2, tr ++ [Event.printLine ("Created: " ++ willFilename)])

/-- `create_state_id()`: renders its story to
`documents/State_ID_Card.pdf`, then prints the `Created:` line. -/
def create_state_id (env : Env) (fs : FS) : Except String (FS × List Event) :=
  match docBuild env fs idFilename idStory with
  | Except.error e => Except.error e
  | Except.ok (fs2, tr) =>
      Except.ok (fs2, tr ++ [Event.printLine ("Created: " ++ idFilename)])

/-- The message the `except` branch prints for an exception `e`:
`print(f"Error creating documents: {e}")`. -/
def errorMessage (e : String) : String := "Error creating documents: " ++ e

/-- The second line the `except` branch prints. -/
def installHint : String := "Please ensure ReportLab is installed: pip install reportlab"

/-- The shell command spawned on success: `os.system('ls -la documents/')`. -/
def lsCommand : String := "ls -la documents/"

/-- Result of a whole run: final filesystem, stdout/side-effect trace, and
process exit status. -/
structure Outcome where
  fs : FS
  trace : List Event
  exitCode : Nat
deriving DecidableEq, Repr

/-- The `except Exception as e` handler: prints the error line and the
install hint; the script then falls off the end, so the exit status is
0. -/
def exceptHandler (fs : FS) (tr : List Event) (e : String) : Outcome :=
  Outcome.mk fs
    (tr ++ [Event.printLine (errorMessage e), Event.printLine installHint]) 0

/-- The `__main__` block: the banner print, then the `try` block running
the three builders in order, the two success prints and the `ls` spawn;
any exception from the `try` body goes to `exceptHandler`. -/
def mainBlock (env : Env) (fs1 : FS) : Outcome :=
  let banner := [Event.printLine "Creating mock documents for Lighthouse Smart Vault..."]
  match create_life_insurance_policy env fs1 with
  | Except.error e => exceptHandler fs1 banner e
  | Except.ok (fs2, t2) =>
    match create_will_and_testament env fs2 with
    | Except.error e => exceptHandler fs2 (banner ++ t2) e
    | Except.ok (fs3, t3) =>
      match create_state_id env fs3 with
      | Except.error e => exceptHandler fs3 (banner ++ t2 ++ t3) e
      | Except.ok (fs4, t4) =>
          Outcome.mk fs4
            (banner ++ t2 ++ t3 ++ t4 ++
              [Event.printLine "\nDocuments created successfully!",
               Event.printLine "Documents directory:",
               Event.systemCmd lsCommand]) 0

/-- A whole run of the script: the module-level
`os.makedirs('documents', exist_ok=True)` runs before the `__main__`
block and outside the `try`, so if it raises, the exception is uncaught
and the interpreter exits with status 1 (traceback on stderr, nothing on
stdout); otherwise the `__main__` block runs and the script exits with
status 0. -/
def runScript (env : Env) (fs0 : FS) : Outcome :=
  match env.mkdirErr with
  | some _ => Outcome.mk fs0 [] 1
  | none =>
    let p := makedirs fs0 "documents"
    let o := mainBlock env p.1
    Outcome.mk o.fs (p.2 ++ o.trace) o.exitCode

theorem lookupFile_setFile_self (l : List (String × List String)) (p : String) (c : List String) :
    lookupFile (setFile l p c) p = some c := by
  induction l with
  | nil => simp [setFile, lookupFile]
  | cons hd tl ih =>
    obtain ⟨q, d⟩ := hd
    by_cases hq : q = p
    · simp [setFile, hq, lookupFile]
    · simp [setFile, hq, lookupFile, ih]

theorem lookupFile_setFile_other (l : List (String × List String)) (p q : String)
    (c : List String) (h : q ≠ p) :
    lookupFile (setFile l p c) q = lookupFile l q := by
  induction l with
  | nil => simp [setFile, lookupFile, Ne.symm h]
  | cons hd tl ih =>
    obtain ⟨r, d⟩ := hd
    by_cases hr : r = p
    · subst hr
      simp [setFile, lookupFile, Ne.symm h]
    · simp [setFile, hr, lookupFile, ih]

theorem render_size_pos (st : List Flowable) : 0 < fileSize (render st) := by
  have h8 : "%PDF-1.4".length = 8 := rfl
  simp [render, fileSize, h8]

theorem makedirs_trace (fs : FS) (d : String) :
    (makedirs fs d).2 = [] ∨ (makedirs fs d).2 = [Event.mkdirCreate d] := by
  by_cases h : d ∈ fs.dirs <;> simp [makedirs, h]

theorem makedirs_files (fs : FS) (d : String) : ((makedirs fs d).1).files = fs.files := by
  by_cases h : d ∈ fs.dirs <;> simp [makedirs, h]

theorem life_build_ok (env : Env) (fs : FS) (h : env.writeErr lifeFilename = none) :
    create_life_insurance_policy env fs =
      Except.ok (FS.mk fs.dirs (setFile fs.files lifeFilename (render (lifeStory env.date))),
        [Event.writeFile lifeFilename (render (lifeStory env.date)),
         Event.printLine ("Created: " ++ lifeFilename)]) := by
  simp [create_life_insurance_policy, docBuild, h]

theorem life_build_err (env : Env) (fs : FS) (e : String)
    (h : env.writeErr lifeFilename = some e) :
    create_life_insurance_policy env fs = Except.error e := by
  simp [create_life_insurance_policy, docBuild, h]

theorem will_build_ok (env : Env) (fs : FS) (h : env.writeErr willFilename = none) :
    create_will_and_testament env fs =
      Except.ok (FS.mk fs.dirs (setFile fs.files willFilename (render willStory)),
        [Event.writeFile willFilename (render willStory),
         Event.printLine ("Created: " ++ willFilename)]) := by
  simp [create_will_and_testament, docBuild, h]

theorem will_build_err (env : Env) (fs : FS) (e : String)
    (h : env.writeErr willFilename = some e) :
    create_will_and_testament env fs = Except.error e := by
  simp [create_will_and_testament, docBuild, h]

theorem id_build_ok (env : Env) (fs : FS) (h : env.writeErr idFilename = none) :
    create_state_id env fs =
      Except.ok (FS.mk fs.dirs (setFile fs.files idFilename (render idStory)),
        [Event.writeFile idFilename (render idStory),
         Event.printLine ("Created: " ++ idFilename)]) := by
  simp [create_state_id, docBuild, h]

theorem id_build_err (env : Env) (fs : FS) (e : String)
    (h : env.writeErr idFilename = some e) :
    create_state_id env fs = Except.error e := by
  simp [create_state_id, docBuild, h]

theorem makedirs_mem_self (fs : FS) (d : String) : d ∈ ((makedirs fs d).1).dirs := by
  by_cases h : d ∈ fs.dirs <;> simp [makedirs, h]

theorem mainBlock_dirs (env : Env) (fs : FS) : ((mainBlock env fs).fs).dirs = fs.dirs := by
  cases h1 : env.writeErr lifeFilename with
  | some e => simp [mainBlock, life_build_err _ _ _ h1, exceptHandler]
  | none =>
    cases h2 : env.writeErr willFilename with
    | some e => simp [mainBlock, life_build_ok _ _ h1, will_build_err _ _ _ h2, exceptHandler]
    | none =>
      cases h3 : env.writeErr idFilename with
      | some e => simp [mainBlock, life_build_ok _ _ h1, will_build_ok _ _ h2,
          id_build_err _ _ _ h3, exceptHandler]
      | none => simp [mainBlock, life_build_ok _ _ h1, will_build_ok _ _ h2, id_build_ok _ _ h3]

theorem mainBlock_no_mkdir (env : Env) (fs : FS) (d : String) :
    Event.mkdirCreate d ∉ (mainBlock env fs).trace := by
  cases h1 : env.writeErr lifeFilename with
  | some e => simp [mainBlock, life_build_err _ _ _ h1, exceptHandler]
  | none =>
    cases h2 : env.writeErr willFilename with
    | some e => simp [mainBlock, life_build_ok _ _ h1, will_build_err _ _ _ h2, exceptHandler]
    | none =>
      cases h3 : env.writeErr idFilename with
      | some e => simp [mainBlock, life_build_ok _ _ h1, will_build_ok _ _ h2,
          id_build_err _ _ _ h3, exceptHandler]
      | none => simp [mainBlock, life_build_ok _ _ h1, will_build_ok _ _ h2, id_build_ok _ _ h3]

/-- A fault-free environment: a fixed current date, `os.makedirs` succeeds,
and every render succeeds. -/
def okEnv : Env := Env.mk "January 01, 2026" none (fun _ => none)

/-- A fault-free environment on a later day. -/
def okEnv2 : Env := Env.mk "February 02, 2026" none (fun _ => none)

/-- An initially empty filesystem: no `documents/` directory, no files. -/
def emptyFS : FS := FS.mk [] []

/-- An environment in which rendering to the life-insurance path raises. -/
def lifeFailEnv : Env :=
  Env.mk "January 01, 2026" none (fun p => if p = lifeFilename then some "disk full" else none)

/-- An environment in which rendering to the will path raises. -/
def willFailEnv : Env :=
  Env.mk "January 01, 2026" none (fun p => if p = willFilename then some "disk full" else none)

/-- An environment in which rendering to the state-ID path raises. -/
def idFailEnv : Env :=
  Env.mk "January 01, 2026" none (fun p => if p = idFilename then some "disk full" else none)

/-- An environment in which the module-level `os.makedirs` itself raises,
as happens when a regular file named `documents` already exists
(`exist_ok=True` only suppresses the error for an existing directory). -/
def mkdirFailEnv : Env :=
  Env.mk "January 01, 2026" (some "File exists: documents") (fun _ => none)

/-- Claim C1 counterexample: when the first document build raises a
failure ("disk full"), the process does not exit with a non-zero status.
The exception is caught, the informational error line and the install hint
are printed, and the script falls off the end, so the interpreter exits
with status 0. -/
theorem C1_counterexample :
    (runScript lifeFailEnv emptyFS).exitCode = 0 ∧
    Event.printLine (errorMessage "disk full") ∈ (runScript lifeFailEnv emptyFS).trace ∧
    Event.printLine installHint ∈ (runScript lifeFailEnv emptyFS).trace := by
  decide

/-- Claim C1 (amended): if any of the three document builds raises a
failure, the process terminates normally with exit status 0, accompanied
by an informational message (the error line naming the exception and the
install hint) rather than a structured error code or a non-zero status. -/
theorem C1_build_failure_termination (env : Env) (fs : FS)
    (hm : env.mkdirErr = none)
    (hf : env.writeErr lifeFilename ≠ none ∨ env.writeErr willFilename ≠ none ∨
      env.writeErr idFilename ≠ none) :
    (runScript env fs).exitCode = 0 ∧
    Event.printLine installHint ∈ (runScript env fs).trace ∧
    ∃ e, Event.printLine (errorMessage e) ∈ (runScript env fs).trace := by
  cases h1 : env.writeErr lifeFilename with
  | some e =>
    refine ⟨?_, ?_, e, ?_⟩ <;>
      simp [runScript, hm, mainBlock, life_build_err _ _ _ h1, exceptHandler]
  | none =>
    cases h2 : env.writeErr willFilename with
    | some e =>
      refine ⟨?_, ?_, e, ?_⟩ <;>
        simp [runScript, hm, mainBlock, life_build_ok _ _ h1, will_build_err _ _ _ h2,
          exceptHandler]
    | none =>
      cases h3 : env.writeErr idFilename with
      | some e =>
        refine ⟨?_, ?_, e, ?_⟩ <;>
          simp [runScript, hm, mainBlock, life_build_ok _ _ h1, will_build_ok _ _ h2,
            id_build_err _ _ _ h3, exceptHandler]
      | none => simp [h1, h2, h3] at hf

/-- Witness for the amended claim C1, at an environment where the will
build raises. -/
theorem C1_witness :
    (runScript willFailEnv emptyFS).exitCode = 0 ∧
    Event.printLine installHint ∈ (runScript willFailEnv emptyFS).trace ∧
    ∃ e, Event.printLine (errorMessage e) ∈ (runScript willFailEnv emptyFS).trace :=
  C1_build_failure_termination willFailEnv emptyFS rfl (Or.inr (Or.inl (by decide)))

/-- Claim C2 counterexample: `os.makedirs('documents', exist_ok=True)`
runs at module level, outside the single `try`.  When it raises (as when a
regular file named `documents` already exists), the exception is caught
nowhere: nothing at all is printed to stdout — in particular no message
containing the exception and no install hint — and the interpreter exits
with status 1.  So it is not the case that every exception raised anywhere
during the run is caught at the top level. -/
theorem C2_counterexample :
    (runScript mkdirFailEnv emptyFS).trace = [] ∧
    (runScript mkdirFailEnv emptyFS).exitCode = 1 := by
  decide

/-- Claim C2 (amended): every exception raised inside the top-level `try`
block — that is, during the three document builds — is caught exactly once
at the top level: the trace ends with the error message naming the
exception followed by the install-hint line, the hint appears nowhere
earlier, and the run terminates normally.  Exceptions raised before the
`try` block (module import, output-directory creation) are not caught.
There is no per-document isolation and no partial-success reporting. -/
theorem C2_try_exception_caught_once (env : Env) (fs : FS)
    (hm : env.mkdirErr = none)
    (hf : ¬(env.writeErr lifeFilename = none ∧ env.writeErr willFilename = none ∧
      env.writeErr idFilename = none)) :
    ∃ e tr, (runScript env fs).trace =
        tr ++ [Event.printLine (errorMessage e), Event.printLine installHint] ∧
      Event.printLine installHint ∉ tr ∧
      (runScript env fs).exitCode = 0 := by
  cases h1 : env.writeErr lifeFilename with
  | some e =>
    refine ⟨e, (makedirs fs "documents").2 ++
      [Event.printLine "Creating mock documents for Lighthouse Smart Vault..."], ?_, ?_, ?_⟩
    · simp [runScript, hm, mainBlock, life_build_err _ _ _ h1, exceptHandler]
    · rcases makedirs_trace fs "documents" with hmk | hmk <;> simp [hmk, installHint]
    · simp [runScript, hm, mainBlock, life_build_err _ _ _ h1, exceptHandler]
  | none =>
    cases h2 : env.writeErr willFilename with
    | some e =>
      refine ⟨e, (makedirs fs "documents").2 ++
        [Event.printLine "Creating mock documents for Lighthouse Smart Vault...",
         Event.writeFile lifeFilename (render (lifeStory env.date)),
         Event.printLine ("Created: " ++ lifeFilename)], ?_, ?_, ?_⟩
      · simp [runScript, hm, mainBlock, life_build_ok _ _ h1, will_build_err _ _ _ h2,
          exceptHandler]
      · rcases makedirs_trace fs "documents" with hmk | hmk <;>
          simp [hmk, installHint, lifeFilename]
      · simp [runScript, hm, mainBlock, life_build_ok _ _ h1, will_build_err _ _ _ h2,
          exceptHandler]
    | none =>
      cases h3 : env.writeErr idFilename with
      | some e =>
        refine ⟨e, (makedirs fs "documents").2 ++
          [Event.printLine "Creating mock documents for Lighthouse Smart Vault...",
           Event.writeFile lifeFilename (render (lifeStory env.date)),
           Event.printLine ("Created: " ++ lifeFilename),
           Event.writeFile willFilename (render willStory),
           Event.printLine ("Created: " ++ willFilename)], ?_, ?_, ?_⟩
        · simp [runScript, hm, mainBlock, life_build_ok _ _ h1, will_build_ok _ _ h2,
            id_build_err _ _ _ h3, exceptHandler]
        · rcases makedirs_trace fs "documents" with hmk | hmk <;>
            simp [hmk, installHint, lifeFilename, willFilename]
        · simp [runScript, hm, mainBlock, life_build_ok _ _ h1, will_build_ok _ _ h2,
            id_build_err _ _ _ h3, exceptHandler]
      | none => exact absurd ⟨h1, h2, h3⟩ hf

/-- Witness for the amended claim C2, at an environment where the state-ID
build raises. -/
theorem C2_witness :
    ∃ e tr, (runScript idFailEnv emptyFS).trace =
        tr ++ [Event.printLine (errorMessage e), Event.printLine installHint] ∧
      Event.printLine installHint ∉ tr ∧
      (runScript idFailEnv emptyFS).exitCode = 0 :=
  C2_try_exception_caught_once idFailEnv emptyFS rfl (by decide)

/-- Claim C3: the three builds run strictly one after another and a
failure aborts the rest of the sequence: if the life-insurance build
fails, neither the will build nor the state-ID build writes its file; if
the life-insurance build succeeds and the will build fails, the state-ID
build does not write its file. -/
theorem C3_failure_aborts_later_builds (env : Env) (fs : FS)
    (hm : env.mkdirErr = none) :
    ((env.writeErr lifeFilename).isSome →
      (∀ c, Event.writeFile willFilename c ∉ (runScript env fs).trace) ∧
      (∀ c, Event.writeFile idFilename c ∉ (runScript env fs).trace)) ∧
    (env.writeErr lifeFilename = none → (env.writeErr willFilename).isSome →
      ∀ c, Event.writeFile idFilename c ∉ (runScript env fs).trace) := by
  constructor
  · intro hs
    obtain ⟨e, h1⟩ := Option.isSome_iff_exists.mp hs
    constructor <;> intro c <;>
      rcases makedirs_trace fs "documents" with hmk | hmk <;>
        simp [runScript, hm, mainBlock, life_build_err _ _ _ h1, exceptHandler, hmk]
  · intro h1 hs
    obtain ⟨e, h2⟩ := Option.isSome_iff_exists.mp hs
    intro c
    rcases makedirs_trace fs "documents" with hmk | hmk <;>
      simp [runScript, hm, mainBlock, life_build_ok _ _ h1, will_build_err _ _ _ h2,
        exceptHandler, hmk, lifeFilename, idFilename]

/-- Witness for claim C3, at an environment where the first build
raises: the two later builds write nothing. -/
theorem C3_witness :
    (∀ c, Event.writeFile willFilename c ∉ (runScript lifeFailEnv emptyFS).trace) ∧
    (∀ c, Event.writeFile idFilename c ∉ (runScript lifeFailEnv emptyFS).trace) :=
  (C3_failure_aborts_later_builds lifeFailEnv emptyFS rfl).1 (by decide)

/-- Claim C4: on a writable environment each builder succeeds and writes
exactly one file, at its fixed deterministic path
(`documents/Life_Insurance_Policy.pdf`,
`documents/Last_Will_and_Testament.pdf`, `documents/State_ID_Card.pdf`
respectively): the output path holds the rendered content, every other
path and the directory list are unchanged, and the only write event is to
that path.  The Python functions take no parameters beyond which of the
three is called and return `None`; in the embedding they consume only the
ambient world and the disk. -/
theorem C4_one_file_at_fixed_path (env : Env) (fs : FS) :
    (env.writeErr lifeFilename = none →
      ∃ fs2 tr, create_life_insurance_policy env fs = Except.ok (fs2, tr) ∧
        lookupFile fs2.files lifeFilename = some (render (lifeStory env.date)) ∧
        (∀ p, p ≠ lifeFilename → lookupFile fs2.files p = lookupFile fs.files p) ∧
        fs2.dirs = fs.dirs ∧
        ∀ p c, Event.writeFile p c ∈ tr → p = lifeFilename) ∧
    (env.writeErr willFilename = none →
      ∃ fs2 tr, create_will_and_testament env fs = Except.ok (fs2, tr) ∧
        lookupFile fs2.files willFilename = some (render willStory) ∧
        (∀ p, p ≠ willFilename → lookupFile fs2.files p = lookupFile fs.files p) ∧
        fs2.dirs = fs.dirs ∧
        ∀ p c, Event.writeFile p c ∈ tr → p = willFilename) ∧
    (env.writeErr idFilename = none →
      ∃ fs2 tr, create_state_id env fs = Except.ok (fs2, tr) ∧
        lookupFile fs2.files idFilename = some (render idStory) ∧
        (∀ p, p ≠ idFilename → lookupFile fs2.files p = lookupFile fs.files p) ∧
        fs2.dirs = fs.dirs ∧
        ∀ p c, Event.writeFile p c ∈ tr → p = idFilename) := by
  refine ⟨fun h1 => ?_, fun h2 => ?_, fun h3 => ?_⟩
  · refine ⟨_, _, life_build_ok env fs h1, lookupFile_setFile_self _ _ _,
      fun p hp => lookupFile_setFile_other _ _ _ _ hp, rfl, fun p c hc => ?_⟩
    simp at hc
    exact hc.1
  · refine ⟨_, _, will_build_ok env fs h2, lookupFile_setFile_self _ _ _,
      fun p hp => lookupFile_setFile_other _ _ _ _ hp, rfl, fun p c hc => ?_⟩
    simp at hc
    exact hc.1
  · refine ⟨_, _, id_build_ok env fs h3, lookupFile_setFile_self _ _ _,
      fun p hp => lookupFile_setFile_other _ _ _ _ hp, rfl, fun p c hc => ?_⟩
    simp at hc
    exact hc.1

/-- Witness for claim C4, for the life-insurance builder on a fault-free
environment and an empty disk. -/
theorem C4_witness :
    ∃ fs2 tr, create_life_insurance_policy okEnv emptyFS = Except.ok (fs2, tr) ∧
      lookupFile fs2.files lifeFilename = some (render (lifeStory okEnv.date)) ∧
      (∀ p, p ≠ lifeFilename → lookupFile fs2.files p = lookupFile emptyFS.files p) ∧
      fs2.dirs = emptyFS.dirs ∧
      ∀ p c, Event.writeFile p c ∈ tr → p = lifeFilename :=
  (C4_one_file_at_fixed_path okEnv emptyFS).1 rfl

/-- Claim C5: the output directory `documents/` is created exactly once,
before any build runs, and only if absent: if it already exists, no
directory-creation event occurs at all; if it is absent (for instance
because it was deleted before the run), the very first event of the run
creates it and no later event does.  The directory exists when the run
ends, and a fault-free run still exits with status 0. -/
theorem C5_directory_created_once_if_absent (env : Env) (fs : FS)
    (hm : env.mkdirErr = none) :
    ("documents" ∈ fs.dirs → ∀ d, Event.mkdirCreate d ∉ (runScript env fs).trace) ∧
    ("documents" ∉ fs.dirs →
      ∃ tr, (runScript env fs).trace = Event.mkdirCreate "documents" :: tr ∧
        ∀ d, Event.mkdirCreate d ∉ tr) ∧
    "documents" ∈ ((runScript env fs).fs).dirs ∧
    (env.writeErr lifeFilename = none → env.writeErr willFilename = none →
      env.writeErr idFilename = none → (runScript env fs).exitCode = 0) := by
  refine ⟨fun hd d => ?_, fun hd => ?_, ?_, fun h1 h2 h3 => ?_⟩
  · have hmb := mainBlock_no_mkdir env (makedirs fs "documents").1 d
    simp [runScript, hm, makedirs, hd] at hmb ⊢
    exact hmb
  · refine ⟨(mainBlock env (FS.mk ("documents" :: fs.dirs) fs.files)).trace, ?_,
      fun d => mainBlock_no_mkdir env _ d⟩
    simp [runScript, hm, makedirs, hd]
  · have := makedirs_mem_self fs "documents"
    simp only [runScript, hm]
    rw [mainBlock_dirs]
    exact this
  · simp [runScript, hm, mainBlock, life_build_ok _ _ h1, will_build_ok _ _ h2,
      id_build_ok _ _ h3]

/-- Witness for claim C5, at a fault-free environment and a disk on which
`documents/` is absent: the run recreates it first. -/
theorem C5_witness :
    ∃ tr, (runScript okEnv emptyFS).trace = Event.mkdirCreate "documents" :: tr ∧
      ∀ d, Event.mkdirCreate d ∉ tr :=
  (C5_directory_created_once_if_absent okEnv emptyFS rfl).2.1 (by decide)

/-- Claim C6: starting from an empty `documents/` directory, one
successful run produces exactly the three output files — so exactly 3
files — each of non-zero size. -/
theorem C6_exactly_three_files (env : Env) (ds : List String)
    (hm : env.mkdirErr = none)
    (h1 : env.writeErr lifeFilename = none) (h2 : env.writeErr willFilename = none)
    (h3 : env.writeErr idFilename = none) :
    (runScript env (FS.mk ds [])).fs.files =
      [(lifeFilename, render (lifeStory env.date)),
       (willFilename, render willStory),
       (idFilename, render idStory)] ∧
    (runScript env (FS.mk ds [])).fs.files.length = 3 ∧
    ∀ pr ∈ (runScript env (FS.mk ds [])).fs.files, 0 < fileSize pr.2 := by
  have hp : ((makedirs (FS.mk ds []) "documents").1).files = [] := makedirs_files _ _
  have hfiles : (runScript env (FS.mk ds [])).fs.files =
      [(lifeFilename, render (lifeStory env.date)),
       (willFilename, render willStory),
       (idFilename, render idStory)] := by
    simp [runScript, hm, mainBlock, life_build_ok _ _ h1, will_build_ok _ _ h2,
      id_build_ok _ _ h3, hp, setFile, lifeFilename, willFilename, idFilename]
  refine ⟨hfiles, by rw [hfiles]; rfl, ?_⟩
  rw [hfiles]
  intro pr hpr
  simp only [List.mem_cons, List.not_mem_nil, or_false] at hpr
  rcases hpr with rfl | rfl | rfl <;> exact render_size_pos _

/-- Witness for claim C6, at a fault-free environment and an empty
`documents/` directory. -/
theorem C6_witness :
    (runScript okEnv (FS.mk ["documents"] [])).fs.files =
      [(lifeFilename, render (lifeStory okEnv.date)),
       (willFilename, render willStory),
       (idFilename, render idStory)] ∧
    (runScript okEnv (FS.mk ["documents"] [])).fs.files.length = 3 ∧
    ∀ pr ∈ (runScript okEnv (FS.mk ["documents"] [])).fs.files, 0 < fileSize pr.2 :=
  C6_exactly_three_files okEnv ["documents"] rfl rfl rfl rfl

/-- Claim C7: re-running a builder when its output file already exists
overwrites the file at the same fixed path without error — the path is
idempotent across runs — while the content need not be identical, since
the current date is embedded in the life-insurance content. -/
theorem C7_rerun_overwrites_same_path (env1 env2 : Env) (fs : FS)
    (h1 : env1.writeErr lifeFilename = none) (h2 : env2.writeErr lifeFilename = none) :
    (∃ fs1 tr1 fs2 tr2,
      create_life_insurance_policy env1 fs = Except.ok (fs1, tr1) ∧
      create_life_insurance_policy env2 fs1 = Except.ok (fs2, tr2) ∧
      lookupFile fs1.files lifeFilename = some (render (lifeStory env1.date)) ∧
      lookupFile fs2.files lifeFilename = some (render (lifeStory env2.date)) ∧
      ∀ p, p ≠ lifeFilename → lookupFile fs2.files p = lookupFile fs.files p) ∧
    ∃ d1 d2, d1 ≠ d2 ∧ render (lifeStory d1) ≠ render (lifeStory d2) := by
  refine ⟨⟨_, _, _, _, life_build_ok env1 fs h1, life_build_ok env2 _ h2,
    lookupFile_setFile_self _ _ _, lookupFile_setFile_self _ _ _, fun p hp => ?_⟩,
    "January 01, 2026", "February 02, 2026", by decide, by decide⟩
  rw [lookupFile_setFile_other _ _ _ _ hp, lookupFile_setFile_other _ _ _ _ hp]

/-- Witness for claim C7: two consecutive runs of the life-insurance
builder on different days, starting from an empty disk. -/
theorem C7_witness :
    (∃ fs1 tr1 fs2 tr2,
      create_life_insurance_policy okEnv emptyFS = Except.ok (fs1, tr1) ∧
      create_life_insurance_policy okEnv2 fs1 = Except.ok (fs2, tr2) ∧
      lookupFile fs1.files lifeFilename = some (render (lifeStory okEnv.date)) ∧
      lookupFile fs2.files lifeFilename = some (render (lifeStory okEnv2.date)) ∧
      ∀ p, p ≠ lifeFilename → lookupFile fs2.files p = lookupFile emptyFS.files p) ∧
    ∃ d1 d2, d1 ≠ d2 ∧ render (lifeStory d1) ≠ render (lifeStory d2) :=
  C7_rerun_overwrites_same_path okEnv okEnv2 emptyFS rfl rfl

/-- Claim C8: each builder is independent and its on-disk side effect is
isolated to its own single output file.  A successful run of any builder
leaves every other path — in particular the other two kinds' output files —
and the directory list unchanged, and the content it writes is
`render` of its own fixed story (a function of the ambient date alone for
the life-insurance policy, a constant for the other two), so no builder
reads or depends on another builder's output. -/
theorem C8_builder_isolation (env : Env) (fs : FS) :
    (∀ fs2 tr, create_life_insurance_policy env fs = Except.ok (fs2, tr) →
      fs2.dirs = fs.dirs ∧
      lookupFile fs2.files lifeFilename = some (render (lifeStory env.date)) ∧
      ∀ p, p ≠ lifeFilename → lookupFile fs2.files p = lookupFile fs.files p) ∧
    (∀ fs2 tr, create_will_and_testament env fs = Except.ok (fs2, tr) →
      fs2.dirs = fs.dirs ∧
      lookupFile fs2.files willFilename = some (render willStory) ∧
      ∀ p, p ≠ willFilename → lookupFile fs2.files p = lookupFile fs.files p) ∧
    (∀ fs2 tr, create_state_id env fs = Except.ok (fs2, tr) →
      fs2.dirs = fs.dirs ∧
      lookupFile fs2.files idFilename = some (render idStory) ∧
      ∀ p, p ≠ idFilename → lookupFile fs2.files p = lookupFile fs.files p) := by
  refine ⟨fun fs2 tr h => ?_, fun fs2 tr h => ?_, fun fs2 tr h => ?_⟩
  · cases hw : env.writeErr lifeFilename with
    | some e => rw [life_build_err _ _ _ hw] at h; cases h
    | none =>
      rw [life_build_ok _ _ hw] at h
      simp only [Except.ok.injEq, Prod.mk.injEq] at h
      obtain ⟨rfl, rfl⟩ := h
      exact ⟨rfl, lookupFile_setFile_self _ _ _,
        fun p hp => lookupFile_setFile_other _ _ _ _ hp⟩
  · cases hw : env.writeErr willFilename with
    | some e => rw [will_build_err _ _ _ hw] at h; cases h
    | none =>
      rw [will_build_ok _ _ hw] at h
      simp only [Except.ok.injEq, Prod.mk.injEq] at h
      obtain ⟨rfl, rfl⟩ := h
      exact ⟨rfl, lookupFile_setFile_self _ _ _,
        fun p hp => lookupFile_setFile_other _ _ _ _ hp⟩
  · cases hw : env.writeErr idFilename with
    | some e => rw [id_build_err _ _ _ hw] at h; cases h
    | none =>
      rw [id_build_ok _ _ hw] at h
      simp only [Except.ok.injEq, Prod.mk.injEq] at h
      obtain ⟨rfl, rfl⟩ := h
      exact ⟨rfl, lookupFile_setFile_self _ _ _,
        fun p hp => lookupFile_setFile_other _ _ _ _ hp⟩

/-- Witness for claim C8: the life-insurance builder run on a fault-free
environment and an empty disk touches nothing but its own path. -/
theorem C8_witness :
    (FS.mk ([] : List String)
        [(lifeFilename, render (lifeStory okEnv.date))]).dirs = emptyFS.dirs ∧
    lookupFile [(lifeFilename, render (lifeStory okEnv.date))] lifeFilename =
      some (render (lifeStory okEnv.date)) ∧
    (∀ p, p ≠ lifeFilename →
      lookupFile [(lifeFilename, render (lifeStory okEnv.date))] p =
        lookupFile emptyFS.files p) :=
  (C8_builder_isolation okEnv emptyFS).1
    (FS.mk [] [(lifeFilename, render (lifeStory okEnv.date))])
    [Event.writeFile lifeFilename (render (lifeStory okEnv.date)),
     Event.printLine ("Created: " ++ lifeFilename)]
    rfl

/-- Claim C9: on a fault-free run the builders execute in the fixed order
life-insurance policy, will, state ID, and each build's file write is
immediately followed by its `Created: <filename>` print; the whole trace
is determined exactly. -/
theorem C9_fixed_order_and_created_prints (env : Env) (fs : FS)
    (hm : env.mkdirErr = none)
    (h1 : env.writeErr lifeFilename = none) (h2 : env.writeErr willFilename = none)
    (h3 : env.writeErr idFilename = none) :
    (runScript env fs).trace =
      (makedirs fs "documents").2 ++
      [Event.printLine "Creating mock documents for Lighthouse Smart Vault...",
       Event.writeFile lifeFilename (render (lifeStory env.date)),
       Event.printLine ("Created: " ++ lifeFilename),
       Event.writeFile willFilename (render willStory),
       Event.printLine ("Created: " ++ willFilename),
       Event.writeFile idFilename (render idStory),
       Event.printLine ("Created: " ++ idFilename),
       Event.printLine "\nDocuments created successfully!",
       Event.printLine "Documents directory:",
       Event.systemCmd lsCommand] := by
  simp [runScript, hm, mainBlock, life_build_ok _ _ h1, will_build_ok _ _ h2,
    id_build_ok _ _ h3]

/-- Witness for claim C9 at a fault-free environment on an empty disk. -/
theorem C9_witness :
    (runScript okEnv emptyFS).trace =
      (makedirs emptyFS "documents").2 ++
      [Event.printLine "Creating mock documents for Lighthouse Smart Vault...",
       Event.writeFile lifeFilename (render (lifeStory okEnv.date)),
       Event.printLine ("Created: " ++ lifeFilename),
       Event.writeFile willFilename (render willStory),
       Event.printLine ("Created: " ++ willFilename),
       Event.writeFile idFilename (render idStory),
       Event.printLine ("Created: " ++ idFilename),
       Event.printLine "\nDocuments created successfully!",
       Event.printLine "Documents directory:",
       Event.systemCmd lsCommand] :=
  C9_fixed_order_and_created_prints okEnv emptyFS rfl rfl rfl rfl

/-- Claim C10: the run spawns a shell subprocess exactly when all three
builds succeed, the only command ever spawned is `ls -la documents/`, and
on a successful run that spawn is the final event, after everything else
(in particular after the three file writes). -/
theorem C10_ls_spawn_after_success (env : Env) (fs : FS) :
    (∀ c, Event.systemCmd c ∈ (runScript env fs).trace → c = lsCommand) ∧
    (Event.systemCmd lsCommand ∈ (runScript env fs).trace ↔
      env.mkdirErr = none ∧ env.writeErr lifeFilename = none ∧
      env.writeErr willFilename = none ∧ env.writeErr idFilename = none) ∧
    (env.mkdirErr = none → env.writeErr lifeFilename = none →
      env.writeErr willFilename = none → env.writeErr idFilename = none →
      ∃ tr, (runScript env fs).trace = tr ++ [Event.systemCmd lsCommand] ∧
        ∀ c, Event.systemCmd c ∉ tr) := by
  cases hm : env.mkdirErr with
  | some e =>
    refine ⟨fun c hc => ?_, ?_, fun hmn _ _ _ => ?_⟩
    · simp [runScript, hm] at hc
    · simp [runScript, hm]
    · exact Option.noConfusion hmn
  | none =>
    cases h1 : env.writeErr lifeFilename with
    | some e =>
      refine ⟨fun c hc => ?_, ?_, fun _ h1n _ _ => ?_⟩
      · rcases makedirs_trace fs "documents" with hmk | hmk <;>
          simp [runScript, hm, mainBlock, life_build_err _ _ _ h1, exceptHandler, hmk] at hc
      · rcases makedirs_trace fs "documents" with hmk | hmk <;>
          simp [runScript, hm, mainBlock, life_build_err _ _ _ h1, exceptHandler, hmk, h1]
      · exact Option.noConfusion h1n
    | none =>
      cases h2 : env.writeErr willFilename with
      | some e =>
        refine ⟨fun c hc => ?_, ?_, fun _ _ h2n _ => ?_⟩
        · rcases makedirs_trace fs "documents" with hmk | hmk <;>
            simp [runScript, hm, mainBlock, life_build_ok _ _ h1, will_build_err _ _ _ h2,
              exceptHandler, hmk] at hc
        · rcases makedirs_trace fs "documents" with hmk | hmk <;>
            simp [runScript, hm, mainBlock, life_build_ok _ _ h1, will_build_err _ _ _ h2,
              exceptHandler, hmk, h2]
        · exact Option.noConfusion h2n
      | none =>
        cases h3 : env.writeErr idFilename with
        | some e =>
          refine ⟨fun c hc => ?_, ?_, fun _ _ _ h3n => ?_⟩
          · rcases makedirs_trace fs "documents" with hmk | hmk <;>
              simp [runScript, hm, mainBlock, life_build_ok _ _ h1, will_build_ok _ _ h2,
                id_build_err _ _ _ h3, exceptHandler, hmk] at hc
          · rcases makedirs_trace fs "documents" with hmk | hmk <;>
              simp [runScript, hm, mainBlock, life_build_ok _ _ h1, will_build_ok _ _ h2,
                id_build_err _ _ _ h3, exceptHandler, hmk, h3]
          · exact Option.noConfusion h3n
        | none =>
          refine ⟨fun c hc => ?_, ?_, fun _ _ _ _ => ?_⟩
          · rcases makedirs_trace fs "documents" with hmk | hmk <;>
              simp [runScript, hm, mainBlock, life_build_ok _ _ h1, will_build_ok _ _ h2,
                id_build_ok _ _ h3, hmk] at hc <;> exact hc
          · rcases makedirs_trace fs "documents" with hmk | hmk <;>
              simp [runScript, hm, mainBlock, life_build_ok _ _ h1, will_build_ok _ _ h2,
                id_build_ok _ _ h3, hmk, h1, h2, h3]
          · refine ⟨(makedirs fs "documents").2 ++
              [Event.printLine "Creating mock documents for Lighthouse Smart Vault...",
               Event.writeFile lifeFilename (render (lifeStory env.date)),
               Event.printLine ("Created: " ++ lifeFilename),
               Event.writeFile willFilename (render willStory),
               Event.printLine ("Created: " ++ willFilename),
               Event.writeFile idFilename (render idStory),
               Event.printLine ("Created: " ++ idFilename),
               Event.printLine "\nDocuments created successfully!",
               Event.printLine "Documents directory:"], ?_, fun c => ?_⟩
            · simp [runScript, hm, mainBlock, life_build_ok _ _ h1, will_build_ok _ _ h2,
                id_build_ok _ _ h3]
            · rcases makedirs_trace fs "documents" with hmk | hmk <;> simp [hmk]

/-- Witness for claim C10 at a fault-free environment: the spawn of
`ls -la documents/` is the final event of the run and occurs nowhere
earlier. -/
theorem C10_witness :
    ∃ tr, (runScript okEnv emptyFS).trace = tr ++ [Event.systemCmd lsCommand] ∧
      ∀ c, Event.systemCmd c ∉ tr :=
  (C10_ls_spawn_after_success okEnv emptyFS).2.2 rfl rfl rfl rfl
